import Mathlib

/-!
Verification development for the UFootball tournament-management backend.

Each definition below is a shallow embedding of a function or model of the
repository (file and symbol named in its doc comment).  Machine integers of
the source are Python arbitrary-precision integers, so they are modelled as
Nat (DB PositiveIntegerField columns) or Int (Python arithmetic on them).
Database tables are modelled as Lean lists of records; querysets become list
filters; signals become explicit state-passing functions.
-/

namespace UFootball

/-! ### Shared status and type enumerations

Source: tournaments/models.py Match.STATUS_CHOICES (five values) and
matches/models.py Match.STATUS_CHOICES (six values, adds half_time),
TournamentPhase.PHASE_TYPES, matches/models.py Match.MATCH_TYPE_CHOICES. -/

/-- Status of a tournament-scoped Match (tournaments/models.py). -/
inductive TStatus
  | scheduled | live | finished | postponed | cancelled
deriving DecidableEq, Repr

/-- Status of a global Match (matches/models.py); has the extra half_time. -/
inductive GStatus
  | scheduled | live | half_time | finished | postponed | cancelled
deriving DecidableEq, Repr

/-- Phase types of TournamentPhase (tournaments/models.py). -/
inductive PhaseType
  | group_stage | round_16 | quarter_final | semi_final | final | third_place
deriving DecidableEq, Repr

/-- Match types of the global Match (matches/models.py). -/
inductive MatchType
  | group_stage | knockout | friendly | final | semi_final | quarter_final | third_place
deriving DecidableEq, Repr

/-! ### Standings engine

Source: tournaments/models.py, TournamentGroup.get_standings (lines 162-218).
A tournament-scoped Match row; only the fields used by the standings
computation are modelled.  Team and group identities are Nat keys. -/

structure TMatch where
  groupId : Option Nat
  homeTeam : Nat
  awayTeam : Nat
  homeScore : Nat
  awayScore : Nat
  status : TStatus
deriving DecidableEq, Repr

/-- A row of the standings dictionary built by get_standings. -/
structure StandingRow where
  team : Nat
  played : Nat
  wins : Nat
  draws : Nat
  losses : Nat
  goals_scored : Nat
  goals_conceded : Nat
  goal_difference : Int
  points : Nat
  pos : Nat
deriving DecidableEq, Repr

/-- The filter group=self, status=finished applied to both match querysets. -/
def isFinishedInGroup (gid : Nat) (m : TMatch) : Bool :=
  m.groupId = some gid && m.status = TStatus.finished

/-- team.tournament_home_matches.filter(group=self, status=finished). -/
def homeMatches (gid team : Nat) (ms : List TMatch) : List TMatch :=
  ms.filter (fun m => isFinishedInGroup gid m && m.homeTeam = team)

/-- team.tournament_away_matches.filter(group=self, status=finished). -/
def awayMatches (gid team : Nat) (ms : List TMatch) : List TMatch :=
  ms.filter (fun m => isFinishedInGroup gid m && m.awayTeam = team)

/-- One iteration of the loop body of get_standings: the standings dict for
one team of the group.  W, D, L are the tournament points_per_win,
points_per_draw, points_per_loss.  The position key is attached later. -/
def mkRow (W D L gid : Nat) (ms : List TMatch) (team : Nat) : StandingRow :=
  let hm := homeMatches gid team ms
  let am := awayMatches gid team ms
  let wins := (hm.filter (fun m => m.awayScore < m.homeScore)).length +
              (am.filter (fun m => m.homeScore < m.awayScore)).length
  let draws := (hm.filter (fun m => m.homeScore = m.awayScore)).length +
               (am.filter (fun m => m.homeScore = m.awayScore)).length
  let losses := (hm.filter (fun m => m.homeScore < m.awayScore)).length +
                (am.filter (fun m => m.awayScore < m.homeScore)).length
  let gs := (hm.map (·.homeScore)).sum + (am.map (·.awayScore)).sum
  let gc := (hm.map (·.awayScore)).sum + (am.map (·.homeScore)).sum
  { team := team
    played := wins + draws + losses
    wins := wins
    draws := draws
    losses := losses
    goals_scored := gs
    goals_conceded := gc
    goal_difference := (gs : Int) - (gc : Int)
    points := wins * W + draws * D + losses * L
    pos := 0 }

/-- The unsorted standings list, one row per team_groups entry in queryset
order (tgs is the list of member team ids of the group). -/
def rawStandings (W D L gid : Nat) (tgs : List Nat) (ms : List TMatch) : List StandingRow :=
  tgs.map (mkRow W D L gid ms)

/-- The Python sort key lambda x: (-points, -goal_difference, -goals_scored). -/
def sortKey (r : StandingRow) : Int × Int × Int :=
  (-(r.points : Int), -r.goal_difference, -(r.goals_scored : Int))

/-- Lexicographic order on the Int triple, as Python compares key tuples. -/
def lexLe (a b : Int × Int × Int) : Prop :=
  a.1 < b.1 ∨ (a.1 = b.1 ∧ (a.2.1 < b.2.1 ∨ (a.2.1 = b.2.1 ∧ a.2.2 ≤ b.2.2)))

instance (a b : Int × Int × Int) : Decidable (lexLe a b) := by
  unfold lexLe; infer_instance

/-- Boolean comparison used to sort standings rows (Python list.sort is a
stable sort by the key; mergeSort with this total preorder is also stable,
and a stable sort by a fixed key is unique, so the results agree). -/
def rowLE (a b : StandingRow) : Bool :=
  decide (lexLe (sortKey a) (sortKey b))

/-- Loop: for idx, standing in enumerate(standings, 1): standing[position] = idx. -/
def addPositions : Nat → List StandingRow → List StandingRow
  | _, [] => []
  | n, r :: rs => { r with pos := n } :: addPositions (n + 1) rs

/-- TournamentGroup.get_standings: build one row per group member, sort by
(-points, -goal_difference, -goals_scored) stably, then assign 1-based
positions. -/
def get_standings (W D L gid : Nat) (tgs : List Nat) (ms : List TMatch) : List StandingRow :=
  addPositions 1 ((rawStandings W D L gid tgs ms).mergeSort rowLE)

/-! Specification-side recounts for the standings: a single scan of all
finished matches of the group in which the team played home or away. -/

/-- Number of finished group matches won by the team (single scan). -/
def specWins (gid t : Nat) (ms : List TMatch) : Nat :=
  (ms.filter (fun m => isFinishedInGroup gid m &&
    ((m.homeTeam = t && m.awayScore < m.homeScore) ||
     (m.awayTeam = t && m.homeScore < m.awayScore)))).length

/-- Number of finished group matches drawn by the team (single scan). -/
def specDraws (gid t : Nat) (ms : List TMatch) : Nat :=
  (ms.filter (fun m => isFinishedInGroup gid m &&
    ((m.homeTeam = t || m.awayTeam = t) && m.homeScore = m.awayScore))).length

/-- Number of finished group matches lost by the team (single scan). -/
def specLosses (gid t : Nat) (ms : List TMatch) : Nat :=
  (ms.filter (fun m => isFinishedInGroup gid m &&
    ((m.homeTeam = t && m.homeScore < m.awayScore) ||
     (m.awayTeam = t && m.awayScore < m.homeScore)))).length

/-- Goals scored by the team over finished group matches (single scan). -/
def specGoalsFor (gid t : Nat) (ms : List TMatch) : Nat :=
  ((ms.filter (isFinishedInGroup gid)).map
    (fun m => (if m.homeTeam = t then m.homeScore else 0) +
              (if m.awayTeam = t then m.awayScore else 0))).sum

/-- Goals conceded by the team over finished group matches (single scan). -/
def specGoalsAgainst (gid t : Nat) (ms : List TMatch) : Nat :=
  ((ms.filter (isFinishedInGroup gid)).map
    (fun m => (if m.homeTeam = t then m.awayScore else 0) +
              (if m.awayTeam = t then m.homeScore else 0))).sum

/-- Descending lexicographic comparison on (points, goal_difference,
goals_scored): row a ranks at least as high as row b. -/
def descGe (a b : StandingRow) : Prop :=
  b.points < a.points ∨ (b.points = a.points ∧
    (b.goal_difference < a.goal_difference ∨ (b.goal_difference = a.goal_difference ∧
      b.goals_scored ≤ a.goals_scored)))

/-! Helper lemmas for the standings theorem. -/

theorem pairwise_of_mem_rel {α : Type} {R : α → α → Prop} :
    ∀ {l : List α}, (∀ a ∈ l, ∀ b ∈ l, R a b) → l.Pairwise R
  | [], _ => List.Pairwise.nil
  | a :: l, h => by
    refine List.Pairwise.cons (fun b hb => h a (by simp) b (by simp [hb])) ?_
    exact pairwise_of_mem_rel (fun x hx y hy => h x (by simp [hx]) y (by simp [hy]))

theorem countP_or_disjoint {α : Type} (p q : α → Bool) :
    ∀ (l : List α), (∀ a ∈ l, ¬(p a = true ∧ q a = true)) →
    l.countP (fun a => p a || q a) = l.countP p + l.countP q := by
  intro l
  induction l with
  | nil => intro _; rfl
  | cons a l ih =>
    intro h
    have ha := h a (by simp)
    have hl := ih (fun x hx => h x (by simp [hx]))
    by_cases hp : p a = true <;> by_cases hq : q a = true
    · exact absurd ⟨hp, hq⟩ ha
    all_goals simp [List.countP_cons, hp, hq, hl]
    all_goals omega

theorem length_filter_filter {α : Type} (p q : α → Bool) :
    ∀ (l : List α), ((l.filter p).filter q).length = l.countP (fun a => p a && q a) := by
  intro l
  rw [List.filter_filter, ← List.countP_eq_length_filter]
  apply List.countP_congr
  intro a _
  by_cases hp : p a = true <;> by_cases hq : q a = true <;> simp [hp, hq]

theorem sum_map_filter {α : Type} (p : α → Bool) (f : α → Nat) :
    ∀ (l : List α), ((l.filter p).map f).sum = (l.map (fun a => if p a then f a else 0)).sum := by
  intro l
  induction l with
  | nil => rfl
  | cons a l ih =>
    by_cases hp : p a = true <;> simp [List.filter_cons, hp, ih]

theorem sum_map_add {α : Type} (f g : α → Nat) :
    ∀ (l : List α), (l.map (fun a => f a + g a)).sum = (l.map f).sum + (l.map g).sum := by
  intro l
  induction l with
  | nil => rfl
  | cons a l ih => simp [ih]; omega

/-- The wins count of a standings row equals the single-scan recount. -/
theorem mkRow_wins (W D L gid : Nat) (ms : List TMatch) (t : Nat) :
    (mkRow W D L gid ms t).wins = specWins gid t ms := by
  show ((homeMatches gid t ms).filter (fun m => m.awayScore < m.homeScore)).length +
       ((awayMatches gid t ms).filter (fun m => m.homeScore < m.awayScore)).length =
       specWins gid t ms
  rw [homeMatches, awayMatches, length_filter_filter, length_filter_filter, specWins,
    ← List.countP_eq_length_filter]
  rw [← countP_or_disjoint _ _ ms (by intro m _ ⟨h1, h2⟩; simp at h1 h2; omega)]
  apply List.countP_congr
  intro m _
  by_cases h1 : isFinishedInGroup gid m <;>
    by_cases h2 : m.homeTeam = t <;> by_cases h3 : m.awayTeam = t <;>
    by_cases h4 : m.awayScore < m.homeScore <;> by_cases h5 : m.homeScore < m.awayScore <;>
    simp [h1, h2, h3, h4, h5]

/-- The draws count equals the single-scan recount, given no self-matches. -/
theorem mkRow_draws (W D L gid : Nat) (ms : List TMatch) (t : Nat)
    (hns : ∀ m ∈ ms, m.homeTeam ≠ m.awayTeam) :
    (mkRow W D L gid ms t).draws = specDraws gid t ms := by
  show ((homeMatches gid t ms).filter (fun m => m.homeScore = m.awayScore)).length +
       ((awayMatches gid t ms).filter (fun m => m.homeScore = m.awayScore)).length =
       specDraws gid t ms
  rw [homeMatches, awayMatches, length_filter_filter, length_filter_filter, specDraws,
    ← List.countP_eq_length_filter]
  rw [← countP_or_disjoint _ _ ms ?_]
  · apply List.countP_congr
    intro m _
    by_cases h1 : isFinishedInGroup gid m <;>
      by_cases h2 : m.homeTeam = t <;> by_cases h3 : m.awayTeam = t <;>
      by_cases h4 : m.homeScore = m.awayScore <;>
      simp [h1, h2, h3, h4]
  · intro m hm ⟨h1, h2⟩
    simp at h1 h2
    exact hns m hm (h1.1.2.trans h2.1.2.symm)

/-- The losses count equals the single-scan recount. -/
theorem mkRow_losses (W D L gid : Nat) (ms : List TMatch) (t : Nat) :
    (mkRow W D L gid ms t).losses = specLosses gid t ms := by
  show ((homeMatches gid t ms).filter (fun m => m.homeScore < m.awayScore)).length +
       ((awayMatches gid t ms).filter (fun m => m.awayScore < m.homeScore)).length =
       specLosses gid t ms
  rw [homeMatches, awayMatches, length_filter_filter, length_filter_filter, specLosses,
    ← List.countP_eq_length_filter]
  rw [← countP_or_disjoint _ _ ms (by intro m _ ⟨h1, h2⟩; simp at h1 h2; omega)]
  apply List.countP_congr
  intro m _
  by_cases h1 : isFinishedInGroup gid m <;>
    by_cases h2 : m.homeTeam = t <;> by_cases h3 : m.awayTeam = t <;>
    by_cases h4 : m.homeScore < m.awayScore <;> by_cases h5 : m.awayScore < m.homeScore <;>
    simp [h1, h2, h3, h4, h5]

/-- Goals scored equal the single-scan recount. -/
theorem mkRow_goals_scored (W D L gid : Nat) (ms : List TMatch) (t : Nat) :
    (mkRow W D L gid ms t).goals_scored = specGoalsFor gid t ms := by
  show ((homeMatches gid t ms).map (·.homeScore)).sum +
       ((awayMatches gid t ms).map (·.awayScore)).sum = specGoalsFor gid t ms
  rw [homeMatches, awayMatches, specGoalsFor]
  rw [show (fun m : TMatch => isFinishedInGroup gid m && m.homeTeam = t) =
    (fun m : TMatch => isFinishedInGroup gid m && m.homeTeam = t) from rfl]
  rw [sum_map_filter, sum_map_filter, sum_map_filter, ← sum_map_add]
  refine congrArg List.sum (List.map_congr_left ?_)
  intro m _
  by_cases h1 : isFinishedInGroup gid m <;>
    by_cases h2 : m.homeTeam = t <;> by_cases h3 : m.awayTeam = t <;>
    simp [h1, h2, h3]

/-- Goals conceded equal the single-scan recount. -/
theorem mkRow_goals_conceded (W D L gid : Nat) (ms : List TMatch) (t : Nat) :
    (mkRow W D L gid ms t).goals_conceded = specGoalsAgainst gid t ms := by
  show ((homeMatches gid t ms).map (·.awayScore)).sum +
       ((awayMatches gid t ms).map (·.homeScore)).sum = specGoalsAgainst gid t ms
  rw [homeMatches, awayMatches, specGoalsAgainst]
  rw [sum_map_filter, sum_map_filter, sum_map_filter, ← sum_map_add]
  refine congrArg List.sum (List.map_congr_left ?_)
  intro m _
  by_cases h1 : isFinishedInGroup gid m <;>
    by_cases h2 : m.homeTeam = t <;> by_cases h3 : m.awayTeam = t <;>
    simp [h1, h2, h3]

theorem rowLE_trans (a b c : StandingRow) (hab : rowLE a b) (hbc : rowLE b c) : rowLE a c := by
  simp only [rowLE, decide_eq_true_eq, lexLe, sortKey] at *
  omega

theorem rowLE_total (a b : StandingRow) : rowLE a b || rowLE b a := by
  simp only [rowLE, Bool.or_eq_true, decide_eq_true_eq, lexLe, sortKey]
  omega

theorem rowLE_descGe (a b : StandingRow) (h : rowLE a b) : descGe a b := by
  simp only [rowLE, decide_eq_true_eq, lexLe, sortKey] at h
  simp only [descGe]
  omega

/-- Setting the position field leaves the sort-relevant fields unchanged. -/
theorem descGe_setPos (a b : StandingRow) (n m : Nat) (h : descGe a b) :
    descGe { a with pos := n } { b with pos := m } := h

theorem mem_addPositions :
    ∀ (l : List StandingRow) (n : Nat) (r : StandingRow), r ∈ addPositions n l →
    ∃ b ∈ l, ∃ m, r = { b with pos := m }
  | [], _, _, h => by simp [addPositions] at h
  | b :: l, n, r, h => by
    simp only [addPositions, List.mem_cons] at h
    rcases h with h | h
    · exact ⟨b, by simp, n, h⟩
    · obtain ⟨b', hb', m, hm⟩ := mem_addPositions l (n + 1) r h
      exact ⟨b', by simp [hb'], m, hm⟩

theorem pairwise_addPositions :
    ∀ (l : List StandingRow) (n : Nat), l.Pairwise descGe →
    (addPositions n l).Pairwise descGe
  | [], _, _ => List.Pairwise.nil
  | b :: l, n, h => by
    rw [List.pairwise_cons] at h
    refine List.Pairwise.cons ?_ (pairwise_addPositions l (n + 1) h.2)
    intro r hr
    obtain ⟨b', hb', m, hm⟩ := mem_addPositions l (n + 1) r hr
    subst hm
    exact descGe_setPos b b' n m (h.1 b' hb')

theorem addPositions_map_team :
    ∀ (l : List StandingRow) (n : Nat),
    (addPositions n l).map (·.team) = l.map (·.team)
  | [], _ => rfl
  | b :: l, n => by
    simp only [addPositions, List.map_cons]
    rw [addPositions_map_team l (n + 1)]

theorem addPositions_length :
    ∀ (l : List StandingRow) (n : Nat), (addPositions n l).length = l.length
  | [], _ => rfl
  | b :: l, n => by simp only [addPositions, List.length_cons, addPositions_length l (n + 1)]

theorem addPositions_get :
    ∀ (l : List StandingRow) (n i : Nat) (h : i < (addPositions n l).length),
    ((addPositions n l).get ⟨i, h⟩).pos = n + i
  | [], n, i, h => by simp [addPositions] at h
  | b :: l, n, 0, h => rfl
  | b :: l, n, i + 1, h => by
    show ((addPositions (n + 1) l).get ⟨i, _⟩).pos = n + (i + 1)
    rw [addPositions_get l (n + 1) i]
    omega

/-- Stability of the standings sort: rows whose sort key equals any fixed
value keep their input (queryset) order. -/
theorem mergeSort_filter_key (raw : List StandingRow) (k : Int × Int × Int) :
    (raw.mergeSort rowLE).filter (fun r => decide (sortKey r = k)) =
    raw.filter (fun r => decide (sortKey r = k)) := by
  have hpair : (raw.filter (fun r => decide (sortKey r = k))).Pairwise
      (fun a b => rowLE a b = true) := by
    apply pairwise_of_mem_rel
    intro a ha b hb
    rw [List.mem_filter] at ha hb
    have h1 : sortKey a = k := by simpa using ha.2
    have h2 : sortKey b = k := by simpa using hb.2
    show rowLE a b = true
    simp only [rowLE, decide_eq_true_eq, h1, h2]
    exact Or.inr ⟨rfl, Or.inr ⟨rfl, le_refl _⟩⟩
  have hsub : List.Sublist (raw.filter (fun r => decide (sortKey r = k)))
      (raw.mergeSort rowLE) :=
    List.sublist_mergeSort rowLE_trans rowLE_total hpair (List.filter_sublist raw)
  have hsub2 : List.Sublist (raw.filter (fun r => decide (sortKey r = k)))
      ((raw.mergeSort rowLE).filter (fun r => decide (sortKey r = k))) := by
    have h3 := hsub.filter (fun r => decide (sortKey r = k))
    rwa [List.filter_eq_self.mpr (fun a ha => (List.mem_filter.mp ha).2)] at h3
  have hlen : ((raw.mergeSort rowLE).filter (fun r => decide (sortKey r = k))).length =
      (raw.filter (fun r => decide (sortKey r = k))).length := by
    rw [← List.countP_eq_length_filter, ← List.countP_eq_length_filter]
    exact (List.mergeSort_perm raw rowLE).countP_eq _
  exact (hsub2.eq_of_length hlen.symm).symm

/-- C1: for every tournament group, get_standings returns one row per
TeamGroup member, whose wins, draws, losses, goals scored and conceded are
the counts over the finished matches of the group in which the team played
home or away, with played, goal_difference and points given by the stated
formulas; the rows are sorted descending by (points, goal_difference,
goals_scored), ties beyond these keys keep stable input order, and the
position field is the 1-based rank after sorting.  The hypothesis is the
no-self-play data-model invariant. -/
theorem c1_standings_correct (W D L gid : Nat) (tgs : List Nat) (ms : List TMatch)
    (hns : ∀ m ∈ ms, m.homeTeam ≠ m.awayTeam) :
    ((get_standings W D L gid tgs ms).map (·.team)).Perm tgs ∧
    (∀ r ∈ get_standings W D L gid tgs ms,
      r.wins = specWins gid r.team ms ∧
      r.draws = specDraws gid r.team ms ∧
      r.losses = specLosses gid r.team ms ∧
      r.goals_scored = specGoalsFor gid r.team ms ∧
      r.goals_conceded = specGoalsAgainst gid r.team ms ∧
      r.played = r.wins + r.draws + r.losses ∧
      r.goal_difference = (r.goals_scored : Int) - (r.goals_conceded : Int) ∧
      r.points = r.wins * W + r.draws * D + r.losses * L) ∧
    (get_standings W D L gid tgs ms).Pairwise descGe ∧
    (∀ k, ((rawStandings W D L gid tgs ms).mergeSort rowLE).filter
        (fun r => decide (sortKey r = k)) =
      (rawStandings W D L gid tgs ms).filter (fun r => decide (sortKey r = k))) ∧
    get_standings W D L gid tgs ms =
      addPositions 1 ((rawStandings W D L gid tgs ms).mergeSort rowLE) ∧
    (∀ i (h : i < (get_standings W D L gid tgs ms).length),
      ((get_standings W D L gid tgs ms).get ⟨i, h⟩).pos = i + 1) := by
  refine ⟨?_, ?_, ?_, fun k => mergeSort_filter_key _ k, rfl, ?_⟩
  · rw [get_standings, addPositions_map_team]
    refine ((List.mergeSort_perm _ rowLE).map (·.team)).trans ?_
    rw [rawStandings, List.map_map]
    have : ((fun r : StandingRow => r.team) ∘ mkRow W D L gid ms) = id := by
      funext t; rfl
    rw [this, List.map_id]
  · intro r hr
    rw [get_standings] at hr
    obtain ⟨b, hb, m, rfl⟩ := mem_addPositions _ 1 r hr
    have hbraw : b ∈ rawStandings W D L gid tgs ms :=
      (List.mergeSort_perm _ rowLE).mem_iff.mp hb
    rw [rawStandings, List.mem_map] at hbraw
    obtain ⟨t, _, rfl⟩ := hbraw
    exact ⟨mkRow_wins W D L gid ms t, mkRow_draws W D L gid ms t hns,
      mkRow_losses W D L gid ms t, mkRow_goals_scored W D L gid ms t,
      mkRow_goals_conceded W D L gid ms t, rfl, rfl, rfl⟩
  · rw [get_standings]
    apply pairwise_addPositions
    exact (List.sorted_mergeSort rowLE_trans rowLE_total _).imp
      (fun h => rowLE_descGe _ _ h)
  · intro i h
    have := addPositions_get ((rawStandings W D L gid tgs ms).mergeSort rowLE) 1 i h
    simpa [Nat.add_comm] using this

/-- Concrete match list for the standings witness: group 1 with teams 1, 2, 3;
team 1 beat team 2 by 2-1 and teams 2 and 3 drew 1-1, both finished. -/
def c1ms : List TMatch :=
  [{ groupId := some 1, homeTeam := 1, awayTeam := 2, homeScore := 2, awayScore := 1,
     status := TStatus.finished },
   { groupId := some 1, homeTeam := 2, awayTeam := 3, homeScore := 1, awayScore := 1,
     status := TStatus.finished }]

/-- Witness for C1 at a concrete group: the no-self-play hypothesis is
discharged by evaluation. -/
theorem c1_standings_correct_witness :
    ((get_standings 3 1 0 1 [1, 2, 3] c1ms).map (·.team)).Perm [1, 2, 3] ∧
    (∀ i (h : i < (get_standings 3 1 0 1 [1, 2, 3] c1ms).length),
      ((get_standings 3 1 0 1 [1, 2, 3] c1ms).get ⟨i, h⟩).pos = i + 1) :=
  ⟨(c1_standings_correct 3 1 0 1 [1, 2, 3] c1ms (by decide)).1,
   (c1_standings_correct 3 1 0 1 [1, 2, 3] c1ms (by decide)).2.2.2.2.2⟩

/-! ### Stat propagation from lineup edits to player career totals

Source: matches/signals.py, update_player_stats_on_lineup_change (lines
6-42), a pre_save receiver on MatchLineup.  The five numeric stat fields of
MatchLineup and the Player career aggregates (matches/models.py lines
216-220, teams/models.py lines 165-169). -/

/-- The five per-match numeric stat fields of a MatchLineup row. -/
structure LineupStats where
  minutes_played : Nat
  goals_scored : Nat
  assists : Nat
  yellow_cards : Nat
  red_cards : Nat
deriving DecidableEq, Repr

/-- The five career aggregate stat fields of a Player. -/
structure PlayerCareer where
  minutes_played : Nat
  goals_scored : Nat
  assists : Nat
  yellow_cards : Nat
  red_cards : Nat
deriving DecidableEq, Repr

/-- player.field = max(0, (player.field or 0) + diff), stored back into a
nonnegative column. -/
def clampAdd (p : Nat) (d : Int) : Nat := ((p : Int) + d).toNat

/-- The pre_save signal body for an update of an existing MatchLineup row:
for each stat field the delta new minus old is added to the career aggregate
and the result floored at zero. -/
def update_player_stats_on_lineup_change (pl : PlayerCareer) (old new : LineupStats) :
    PlayerCareer :=
  { minutes_played :=
      clampAdd pl.minutes_played ((new.minutes_played : Int) - (old.minutes_played : Int))
    goals_scored :=
      clampAdd pl.goals_scored ((new.goals_scored : Int) - (old.goals_scored : Int))
    assists := clampAdd pl.assists ((new.assists : Int) - (old.assists : Int))
    yellow_cards :=
      clampAdd pl.yellow_cards ((new.yellow_cards : Int) - (old.yellow_cards : Int))
    red_cards := clampAdd pl.red_cards ((new.red_cards : Int) - (old.red_cards : Int)) }

/-- A sequence of saves of one existing MatchLineup row: each list element is
the stats the row is saved with next; the signal fires before each save and
then the new values are persisted. -/
def runLineupEdits : PlayerCareer → LineupStats → List LineupStats → PlayerCareer × LineupStats
  | pl, cur, [] => (pl, cur)
  | pl, cur, v :: vs => runLineupEdits (update_player_stats_on_lineup_change pl cur v) v vs

/-- The per-update deltas (new minus old) of one numeric field along an edit
sequence. -/
def fieldDeltas : Nat → List Nat → List Int
  | _, [] => []
  | prev, v :: vs => ((v : Int) - (prev : Int)) :: fieldDeltas v vs

/-- No intermediate flooring: every prefix sum of the deltas keeps the
aggregate nonnegative (bounded quantifier, so it is decidable). -/
def prefixesNonneg (p : Int) (ds : List Int) : Prop :=
  ∀ n ∈ List.range (ds.length + 1), 0 ≤ p + ((ds.take n).sum)

instance (p : Int) (ds : List Int) : Decidable (prefixesNonneg p ds) := by
  unfold prefixesNonneg; infer_instance

theorem runLineupEdits_goals (vs : List LineupStats) :
    ∀ (pl : PlayerCareer) (cur : LineupStats),
    (runLineupEdits pl cur vs).1.goals_scored =
      (fieldDeltas cur.goals_scored (vs.map (·.goals_scored))).foldl clampAdd pl.goals_scored := by
  induction vs with
  | nil => intro pl cur; rfl
  | cons v vs ih =>
    intro pl cur
    simpa [runLineupEdits, fieldDeltas, update_player_stats_on_lineup_change] using
      ih (update_player_stats_on_lineup_change pl cur v) v

theorem runLineupEdits_assists (vs : List LineupStats) :
    ∀ (pl : PlayerCareer) (cur : LineupStats),
    (runLineupEdits pl cur vs).1.assists =
      (fieldDeltas cur.assists (vs.map (·.assists))).foldl clampAdd pl.assists := by
  induction vs with
  | nil => intro pl cur; rfl
  | cons v vs ih =>
    intro pl cur
    simpa [runLineupEdits, fieldDeltas, update_player_stats_on_lineup_change] using
      ih (update_player_stats_on_lineup_change pl cur v) v

theorem runLineupEdits_yellow (vs : List LineupStats) :
    ∀ (pl : PlayerCareer) (cur : LineupStats),
    (runLineupEdits pl cur vs).1.yellow_cards =
      (fieldDeltas cur.yellow_cards (vs.map (·.yellow_cards))).foldl clampAdd pl.yellow_cards := by
  induction vs with
  | nil => intro pl cur; rfl
  | cons v vs ih =>
    intro pl cur
    simpa [runLineupEdits, fieldDeltas, update_player_stats_on_lineup_change] using
      ih (update_player_stats_on_lineup_change pl cur v) v

theorem runLineupEdits_red (vs : List LineupStats) :
    ∀ (pl : PlayerCareer) (cur : LineupStats),
    (runLineupEdits pl cur vs).1.red_cards =
      (fieldDeltas cur.red_cards (vs.map (·.red_cards))).foldl clampAdd pl.red_cards := by
  induction vs with
  | nil => intro pl cur; rfl
  | cons v vs ih =>
    intro pl cur
    simpa [runLineupEdits, fieldDeltas, update_player_stats_on_lineup_change] using
      ih (update_player_stats_on_lineup_change pl cur v) v

theorem runLineupEdits_minutes (vs : List LineupStats) :
    ∀ (pl : PlayerCareer) (cur : LineupStats),
    (runLineupEdits pl cur vs).1.minutes_played =
      (fieldDeltas cur.minutes_played (vs.map (·.minutes_played))).foldl clampAdd
        pl.minutes_played := by
  induction vs with
  | nil => intro pl cur; rfl
  | cons v vs ih =>
    intro pl cur
    simpa [runLineupEdits, fieldDeltas, update_player_stats_on_lineup_change] using
      ih (update_player_stats_on_lineup_change pl cur v) v

theorem foldl_clampAdd_of_nonneg :
    ∀ (ds : List Int) (p : Nat), prefixesNonneg (p : Int) ds →
    ((ds.foldl clampAdd p : Nat) : Int) = (p : Int) + ds.sum
  | [], p, _ => by simp
  | d :: ds, p, h => by
    have h1 : 0 ≤ (p : Int) + d := by
      have := h 1 (by simp)
      simpa using this
    have hstep : ((clampAdd p d : Nat) : Int) = (p : Int) + d := by
      simp only [clampAdd]
      omega
    have h2 : prefixesNonneg ((clampAdd p d : Nat) : Int) ds := by
      intro n hn
      rw [hstep]
      have := h (n + 1) (by simp at hn ⊢; omega)
      simpa [List.take_cons, Int.add_assoc] using this
    calc ((List.foldl clampAdd (clampAdd p d) ds : Nat) : Int)
        = ((clampAdd p d : Nat) : Int) + ds.sum := foldl_clampAdd_of_nonneg ds (clampAdd p d) h2
      _ = (p : Int) + (d :: ds).sum := by rw [hstep]; simp [Int.add_assoc]

/-- C2 (amended): after a sequence of edits to an existing MatchLineup row,
each of the five player career aggregates equals the left fold of
clamped-at-zero delta addition over the per-update deltas taken in the order
applied; when no intermediate value is floored the aggregate equals its
initial value plus the sum of the deltas.  (The per-step floor makes the
unconditional floored-sum formula and edit-order independence of the original
claim fail; see the counterexample.) -/
theorem c2_delta_propagation (pl : PlayerCareer) (cur : LineupStats) (vs : List LineupStats) :
    ((runLineupEdits pl cur vs).1.goals_scored =
        (fieldDeltas cur.goals_scored (vs.map (·.goals_scored))).foldl clampAdd
          pl.goals_scored ∧
      (runLineupEdits pl cur vs).1.assists =
        (fieldDeltas cur.assists (vs.map (·.assists))).foldl clampAdd pl.assists ∧
      (runLineupEdits pl cur vs).1.yellow_cards =
        (fieldDeltas cur.yellow_cards (vs.map (·.yellow_cards))).foldl clampAdd
          pl.yellow_cards ∧
      (runLineupEdits pl cur vs).1.red_cards =
        (fieldDeltas cur.red_cards (vs.map (·.red_cards))).foldl clampAdd pl.red_cards ∧
      (runLineupEdits pl cur vs).1.minutes_played =
        (fieldDeltas cur.minutes_played (vs.map (·.minutes_played))).foldl clampAdd
          pl.minutes_played) ∧
    (prefixesNonneg (pl.goals_scored : Int)
        (fieldDeltas cur.goals_scored (vs.map (·.goals_scored))) →
      ((runLineupEdits pl cur vs).1.goals_scored : Int) =
        (pl.goals_scored : Int) +
          (fieldDeltas cur.goals_scored (vs.map (·.goals_scored))).sum) := by
  refine ⟨⟨runLineupEdits_goals vs pl cur, runLineupEdits_assists vs pl cur,
    runLineupEdits_yellow vs pl cur, runLineupEdits_red vs pl cur,
    runLineupEdits_minutes vs pl cur⟩, ?_⟩
  intro h
  rw [runLineupEdits_goals vs pl cur]
  exact foldl_clampAdd_of_nonneg _ pl.goals_scored h

/-- All-zero initial career aggregates for the C2 witness and counterexample. -/
def c2pl : PlayerCareer :=
  { minutes_played := 0, goals_scored := 0, assists := 0, yellow_cards := 0, red_cards := 0 }

/-- Stored lineup row with five goals before the edits. -/
def c2cur : LineupStats :=
  { minutes_played := 0, goals_scored := 5, assists := 0, yellow_cards := 0, red_cards := 0 }

/-- First edit: the lineup goals are set to zero (delta minus five). -/
def c2e1 : LineupStats :=
  { minutes_played := 0, goals_scored := 0, assists := 0, yellow_cards := 0, red_cards := 0 }

/-- Second edit: the lineup goals are set to three (delta plus three). -/
def c2e2 : LineupStats :=
  { minutes_played := 0, goals_scored := 3, assists := 0, yellow_cards := 0, red_cards := 0 }

/-- Counterexample to C2 as stated: starting from a career aggregate of 0 and
a stored lineup row with 5 goals, saving the row with 0 goals and then with 3
goals leaves the player with 3 career goals, while the claimed floored delta
sum is 0, and applying the same two edits in the other order leaves 0 — so
the final value is neither the floored sum of deltas nor order-independent. -/
theorem c2_counterexample :
    (runLineupEdits c2pl c2cur [c2e1, c2e2]).1.goals_scored = 3 ∧
    ((c2pl.goals_scored : Int) +
      (fieldDeltas c2cur.goals_scored ([c2e1, c2e2].map (·.goals_scored))).sum).toNat = 0 ∧
    (runLineupEdits c2pl c2cur [c2e2, c2e1]).1.goals_scored = 0 := by
  decide

/-- Third edit: the lineup goals are set to seven (delta plus two). -/
def c2e3 : LineupStats :=
  { minutes_played := 0, goals_scored := 7, assists := 0, yellow_cards := 0, red_cards := 0 }

/-- Witness for C2 at a concrete edit sequence with nonnegative prefixes. -/
theorem c2_delta_propagation_witness :
    ((runLineupEdits c2pl c2cur [c2e3]).1.goals_scored : Int) =
      (c2pl.goals_scored : Int) +
        (fieldDeltas c2cur.goals_scored ([c2e3].map (·.goals_scored))).sum :=
  (c2_delta_propagation c2pl c2cur [c2e3]).2 (by decide)

/-! ### Tournament to global match synchronizer

Source: tournaments/signals.py, sync_match_to_global (lines 7-54) and
delete_global_match (lines 56-64); record shapes from tournaments/models.py
Match and matches/models.py Match. -/

/-- A TournamentPhase row, as far as the synchronizer reads it. -/
structure Phase where
  id : Nat
  phase_type : PhaseType
deriving DecidableEq, Repr

/-- A tournament-scoped Match row (tournaments/models.py Match), the fields
read by the synchronizer. -/
structure TournMatch where
  id : Nat
  tournament : Nat
  phase : Option Phase
  group : Option Nat
  home_team : Nat
  away_team : Nat
  match_date : Nat
  venue : String
  home_score : Nat
  away_score : Nat
  status : TStatus
deriving DecidableEq, Repr

/-- A global Match row (matches/models.py Match): the mirrored fields plus
the global-only fields the synchronizer must not touch. -/
structure GlobalMatch where
  id : Nat
  tournament : Option Nat
  phase : Option Phase
  group : Option Nat
  home_team : Nat
  away_team : Nat
  scheduled_date : Nat
  venue_name : String
  home_score : Nat
  away_score : Nat
  status : GStatus
  match_type : MatchType
  referee : Option Nat
  assistant_referee_1 : Option Nat
  assistant_referee_2 : Option Nat
  home_score_extra_time : Option Nat
  away_score_extra_time : Option Nat
  home_score_penalties : Option Nat
  away_score_penalties : Option Nat
  attendance : Option Nat
  notes : String
deriving DecidableEq, Repr

/-- status_mapping dict of sync_match_to_global: every tournament status maps
to the global status of the same name (the dict covers all five keys, so the
scheduled default is never used). -/
def statusMapping : TStatus → GStatus
  | TStatus.scheduled => GStatus.scheduled
  | TStatus.live => GStatus.live
  | TStatus.finished => GStatus.finished
  | TStatus.postponed => GStatus.postponed
  | TStatus.cancelled => GStatus.cancelled

/-- phase_type_mapping dict: round_16 coarsens to knockout, the finals map to
themselves; any other value falls back to group_stage via dict.get. -/
def phaseTypeMapping : PhaseType → MatchType
  | PhaseType.group_stage => MatchType.group_stage
  | PhaseType.round_16 => MatchType.knockout
  | PhaseType.quarter_final => MatchType.quarter_final
  | PhaseType.semi_final => MatchType.semi_final
  | PhaseType.final => MatchType.final
  | PhaseType.third_place => MatchType.third_place

/-- match_type derivation: group_stage when the match has no phase, else the
mapped phase type. -/
def matchTypeOf (m : TournMatch) : MatchType :=
  match m.phase with
  | none => MatchType.group_stage
  | some ph => phaseTypeMapping ph.phase_type

/-- Writing the match_data defaults dict onto an existing GlobalMatch row:
only the mirrored fields change. -/
def applyMirror (g : GlobalMatch) (m : TournMatch) : GlobalMatch :=
  { g with
    tournament := some m.tournament
    phase := m.phase
    group := m.group
    home_team := m.home_team
    away_team := m.away_team
    scheduled_date := m.match_date
    venue_name := m.venue
    home_score := m.home_score
    away_score := m.away_score
    status := statusMapping m.status
    match_type := matchTypeOf m }

/-- A freshly created GlobalMatch before the defaults dict is applied: the
shared id plus the model defaults of every unmapped field. -/
def defaultGlobal (idv : Nat) : GlobalMatch :=
  { id := idv
    tournament := none
    phase := none
    group := none
    home_team := 0
    away_team := 0
    scheduled_date := 0
    venue_name := ""
    home_score := 0
    away_score := 0
    status := GStatus.scheduled
    match_type := MatchType.group_stage
    referee := none
    assistant_referee_1 := none
    assistant_referee_2 := none
    home_score_extra_time := none
    away_score_extra_time := none
    home_score_penalties := none
    away_score_penalties := none
    attendance := none
    notes := "" }

/-- sync_match_to_global: GlobalMatch.objects.update_or_create keyed on the
shared id, with the mirrored fields as defaults.  The global match table is a
list of rows; ids are unique in the real table (primary key). -/
def sync_match_to_global (store : List GlobalMatch) (m : TournMatch) : List GlobalMatch :=
  if store.any (fun g => g.id = m.id) then
    store.map (fun g => if g.id = m.id then applyMirror g m else g)
  else
    store ++ [applyMirror (defaultGlobal m.id) m]

/-- delete_global_match: delete the row with the shared id; absence is a
silent no-op. -/
def delete_global_match (store : List GlobalMatch) (idv : Nat) : List GlobalMatch :=
  store.filter (fun g => g.id ≠ idv)

theorem applyMirror_applyMirror (g : GlobalMatch) (m : TournMatch) :
    applyMirror (applyMirror g m) m = applyMirror g m := rfl

theorem applyMirror_id (g : GlobalMatch) (m : TournMatch) :
    (applyMirror g m).id = g.id := rfl

/-- The per-row upsert step does not change any id. -/
theorem upsertStep_id (m : TournMatch) (g : GlobalMatch) :
    (if g.id = m.id then applyMirror g m else g).id = g.id := by
  by_cases hg : g.id = m.id <;> simp [hg, applyMirror_id]

theorem countP_id_eq_one (x : Nat) :
    ∀ (store : List GlobalMatch), (store.map (·.id)).Nodup →
    store.any (fun g => g.id = x) = true →
    store.countP (fun g => decide (g.id = x)) = 1
  | [], _, hx => by simp at hx
  | a :: l, hnd, hx => by
    rw [List.map_cons, List.nodup_cons] at hnd
    by_cases ha : a.id = x
    · have hzero : l.countP (fun g => decide (g.id = x)) = 0 := by
        rw [List.countP_eq_zero]
        intro g hg
        simp only [decide_eq_true_eq]
        intro hc
        exact hnd.1 (by rw [ha, ← hc]; exact List.mem_map_of_mem (·.id) hg)
      simp [List.countP_cons, ha, hzero]
    · have hl : l.any (fun g => g.id = x) = true := by
        rw [List.any_cons] at hx
        simpa [ha] using hx
      simp [List.countP_cons, ha, countP_id_eq_one x l hnd.2 hl]

theorem sync_count_one (store : List GlobalMatch) (m : TournMatch)
    (hnd : (store.map (·.id)).Nodup) :
    ((sync_match_to_global store m).filter (fun g => g.id = m.id)).length = 1 := by
  rw [sync_match_to_global]
  by_cases h : store.any (fun g => g.id = m.id) = true
  · rw [if_pos h, ← List.countP_eq_length_filter, List.countP_map]
    have hcomp : ((fun g : GlobalMatch => decide (g.id = m.id)) ∘
        (fun g => if g.id = m.id then applyMirror g m else g)) =
        (fun g : GlobalMatch => decide (g.id = m.id)) := by
      funext g
      simp [Function.comp, upsertStep_id]
    rw [hcomp]
    exact countP_id_eq_one m.id store hnd h
  · rw [if_neg h, ← List.countP_eq_length_filter, List.countP_append]
    have hf : ∀ g ∈ store, ¬((fun g : GlobalMatch => decide (g.id = m.id)) g = true) :=
      List.any_eq_false.mp (by simpa using h)
    have h0 : store.countP (fun g => decide (g.id = m.id)) = 0 := by
      rw [List.countP_eq_zero]
      exact hf
    simp [h0, applyMirror_id, defaultGlobal]

theorem sync_mirrors (store : List GlobalMatch) (m : TournMatch) :
    ∀ g ∈ sync_match_to_global store m, g.id = m.id →
      (g.tournament = some m.tournament ∧ g.phase = m.phase ∧ g.group = m.group ∧
       g.home_team = m.home_team ∧ g.away_team = m.away_team ∧
       g.scheduled_date = m.match_date ∧ g.venue_name = m.venue ∧
       g.home_score = m.home_score ∧ g.away_score = m.away_score ∧
       g.status = statusMapping m.status ∧ g.match_type = matchTypeOf m) := by
  intro g hg hid
  rw [sync_match_to_global] at hg
  by_cases h : store.any (fun g => g.id = m.id) = true
  · rw [if_pos h, List.mem_map] at hg
    obtain ⟨g0, hg0, rfl⟩ := hg
    by_cases h0 : g0.id = m.id
    · rw [if_pos h0]
      exact ⟨rfl, rfl, rfl, rfl, rfl, rfl, rfl, rfl, rfl, rfl, rfl⟩
    · rw [if_neg h0] at hid
      exact absurd hid h0
  · rw [if_neg h, List.mem_append] at hg
    rcases hg with hg | hg
    · have hf : ∀ x ∈ store, ¬((fun g : GlobalMatch => decide (g.id = m.id)) x = true) :=
        List.any_eq_false.mp (by simpa using h)
      have := hf g hg
      simp only [decide_eq_true_eq] at this
      exact absurd hid this
    · rw [List.mem_singleton] at hg
      subst hg
      exact ⟨rfl, rfl, rfl, rfl, rfl, rfl, rfl, rfl, rfl, rfl, rfl⟩

theorem sync_idempotent (store : List GlobalMatch) (m : TournMatch) :
    sync_match_to_global (sync_match_to_global store m) m =
      sync_match_to_global store m := by
  rw [sync_match_to_global, sync_match_to_global]
  by_cases h : store.any (fun g => g.id = m.id) = true
  · rw [if_pos h]
    have hany : (store.map (fun g => if g.id = m.id then applyMirror g m else g)).any
        (fun g => g.id = m.id) = true := by
      rw [List.any_map]
      rw [List.any_eq_true] at h ⊢
      obtain ⟨g0, hg0, hid⟩ := h
      exact ⟨g0, hg0, by simpa [Function.comp, upsertStep_id] using hid⟩
    rw [if_pos hany, List.map_map]
    apply List.map_congr_left
    intro g _
    by_cases hg : g.id = m.id
    · simp [Function.comp, hg, applyMirror_id, applyMirror_applyMirror]
    · simp [Function.comp, hg]
  · rw [if_neg h]
    have hany : (store ++ [applyMirror (defaultGlobal m.id) m]).any
        (fun g => g.id = m.id) = true := by
      rw [List.any_eq_true]
      exact ⟨applyMirror (defaultGlobal m.id) m, by simp,
        by simp [applyMirror_id, defaultGlobal]⟩
    rw [if_pos hany, List.map_append]
    have hf : ∀ x ∈ store, ¬((fun g : GlobalMatch => decide (g.id = m.id)) x = true) :=
      List.any_eq_false.mp (by simpa using h)
    congr 1
    · have : ∀ g ∈ store, (if g.id = m.id then applyMirror g m else g) = g := by
        intro g hg
        have := hf g hg
        simp only [decide_eq_true_eq] at this
        rw [if_neg this]
      calc store.map (fun g => if g.id = m.id then applyMirror g m else g)
          = store.map id := List.map_congr_left (fun g hg => this g hg)
        _ = store := List.map_id store
    · have : (applyMirror (defaultGlobal m.id) m).id = m.id := rfl
      simp [this, applyMirror_applyMirror]

theorem sync_preserves_unmapped (store : List GlobalMatch) (m : TournMatch)
    (g : GlobalMatch) (hg : g ∈ store) (hid : g.id = m.id) :
    ∀ g2 ∈ sync_match_to_global store m, g2.id = m.id →
      ∃ g0 ∈ store, g0.id = m.id ∧
        g2.referee = g0.referee ∧
        g2.assistant_referee_1 = g0.assistant_referee_1 ∧
        g2.assistant_referee_2 = g0.assistant_referee_2 ∧
        g2.home_score_extra_time = g0.home_score_extra_time ∧
        g2.away_score_extra_time = g0.away_score_extra_time ∧
        g2.home_score_penalties = g0.home_score_penalties ∧
        g2.away_score_penalties = g0.away_score_penalties ∧
        g2.attendance = g0.attendance ∧
        g2.notes = g0.notes := by
  intro g2 hg2 hid2
  have hany : store.any (fun x => x.id = m.id) = true := by
    rw [List.any_eq_true]
    exact ⟨g, hg, by simpa using hid⟩
  rw [sync_match_to_global, if_pos hany, List.mem_map] at hg2
  obtain ⟨g0, hg0, rfl⟩ := hg2
  by_cases h0 : g0.id = m.id
  · rw [if_pos h0]
    exact ⟨g0, hg0, h0, rfl, rfl, rfl, rfl, rfl, rfl, rfl, rfl, rfl⟩
  · rw [if_neg h0] at hid2
    exact absurd hid2 h0

/-- C3: saving a tournament-scoped Match upserts exactly one GlobalMatch with
the shared identifier; its mirrored fields (tournament, phase, group, teams,
date, venue, scores, status mapped name-for-name, match_type with round_16
coarsened to knockout and the finals mapped to themselves) equal the
tournament match values; applying the same save twice gives the same table as
applying it once; and on update the GlobalMatch-only fields (referees,
extra-time and penalty scores, attendance, notes) come unchanged from the
pre-existing row. -/
theorem c3_sync_correct (store : List GlobalMatch) (m : TournMatch)
    (hnd : (store.map (·.id)).Nodup) :
    ((sync_match_to_global store m).filter (fun g => g.id = m.id)).length = 1 ∧
    (∀ g ∈ sync_match_to_global store m, g.id = m.id →
      (g.tournament = some m.tournament ∧ g.phase = m.phase ∧ g.group = m.group ∧
       g.home_team = m.home_team ∧ g.away_team = m.away_team ∧
       g.scheduled_date = m.match_date ∧ g.venue_name = m.venue ∧
       g.home_score = m.home_score ∧ g.away_score = m.away_score ∧
       g.status = statusMapping m.status ∧
       (m.phase = none → g.match_type = MatchType.group_stage) ∧
       (∀ ph, m.phase = some ph →
         ((ph.phase_type = PhaseType.group_stage → g.match_type = MatchType.group_stage) ∧
          (ph.phase_type = PhaseType.round_16 → g.match_type = MatchType.knockout) ∧
          (ph.phase_type = PhaseType.quarter_final →
            g.match_type = MatchType.quarter_final) ∧
          (ph.phase_type = PhaseType.semi_final → g.match_type = MatchType.semi_final) ∧
          (ph.phase_type = PhaseType.final → g.match_type = MatchType.final) ∧
          (ph.phase_type = PhaseType.third_place →
            g.match_type = MatchType.third_place))))) ∧
    sync_match_to_global (sync_match_to_global store m) m =
      sync_match_to_global store m ∧
    (∀ g ∈ store, g.id = m.id → ∀ g' ∈ sync_match_to_global store m, g'.id = m.id →
      ∃ g0 ∈ store, g0.id = m.id ∧
        g'.referee = g0.referee ∧
        g'.assistant_referee_1 = g0.assistant_referee_1 ∧
        g'.assistant_referee_2 = g0.assistant_referee_2 ∧
        g'.home_score_extra_time = g0.home_score_extra_time ∧
        g'.away_score_extra_time = g0.away_score_extra_time ∧
        g'.home_score_penalties = g0.home_score_penalties ∧
        g'.away_score_penalties = g0.away_score_penalties ∧
        g'.attendance = g0.attendance ∧
        g'.notes = g0.notes) := by
  refine ⟨sync_count_one store m hnd, ?_, sync_idempotent store m,
    fun g hg hid => sync_preserves_unmapped store m g hg hid⟩
  intro g hg hid
  have h := sync_mirrors store m g hg hid
  refine ⟨h.1, h.2.1, h.2.2.1, h.2.2.2.1, h.2.2.2.2.1, h.2.2.2.2.2.1,
    h.2.2.2.2.2.2.1, h.2.2.2.2.2.2.2.1, h.2.2.2.2.2.2.2.2.1,
    h.2.2.2.2.2.2.2.2.2.1, ?_, ?_⟩
  · intro hp
    have hmt := h.2.2.2.2.2.2.2.2.2.2
    simp only [matchTypeOf, hp] at hmt
    exact hmt
  · intro ph hp
    have hmt := h.2.2.2.2.2.2.2.2.2.2
    simp only [matchTypeOf, hp] at hmt
    refine ⟨?_, ?_, ?_, ?_, ?_, ?_⟩ <;> intro hpt <;>
      simp only [hpt, phaseTypeMapping] at hmt <;> exact hmt

/-- Concrete tournament match for the C3 witness: a round-16 fixture. -/
def c3m : TournMatch :=
  { id := 7, tournament := 1, phase := some { id := 2, phase_type := PhaseType.round_16 },
    group := none, home_team := 1, away_team := 2, match_date := 10, venue := "A",
    home_score := 0, away_score := 0, status := TStatus.scheduled }

/-- Concrete global match table for the C3 witness, holding a pre-existing
mirror row with a referee and notes that the sync must not touch. -/
def c3store : List GlobalMatch :=
  [{ defaultGlobal 7 with referee := some 9, notes := "kept" }]

/-- Witness for C3 at a concrete store with unique ids. -/
theorem c3_sync_correct_witness :
    ((sync_match_to_global c3store c3m).filter (fun g => g.id = c3m.id)).length = 1 ∧
    sync_match_to_global (sync_match_to_global c3store c3m) c3m =
      sync_match_to_global c3store c3m :=
  ⟨(c3_sync_correct c3store c3m (by decide)).1,
   (c3_sync_correct c3store c3m (by decide)).2.2.1⟩

/-! ### Visibility resolver for the match entity family

Source: matches/views.py, get_user_allowed_matches (lines 23-85), read
together with users/models.py (user_type) and teams/models.py (Club.owner,
Team.coach, Team.followers, Player.parent_email, Player.parent2_email).
user_type is kept as a string because the source compares it against string
literals, including a value (coach) outside the declared choices. -/

/-- A Club row: id and nullable owner. -/
structure ClubRec where
  id : Nat
  owner : Option Nat
deriving DecidableEq, Repr

/-- A Team row: id, owning club and nullable coach. -/
structure TeamRec where
  id : Nat
  club : Nat
  coach : Option Nat
deriving DecidableEq, Repr

/-- A Player row: the fields read by the visibility resolver. -/
structure PlayerVis where
  id : Nat
  team : Nat
  parent_email : String
  parent2_email : String
deriving DecidableEq, Repr

/-- A global Match row as the resolver sees it. -/
structure MatchVis where
  id : Nat
  home_team : Nat
  away_team : Nat
  created_by : Option Nat
deriving DecidableEq, Repr

/-- The requesting user. -/
structure UserRec where
  id : Nat
  authenticated : Bool
  user_type : String
  email : String
deriving DecidableEq, Repr

/-- The database visible to the resolver.  followers holds the
(team id, user id) pairs of the Team.followers many-to-many table. -/
structure World where
  clubs : List ClubRec
  teams : List TeamRec
  players : List PlayerVis
  gmatches : List MatchVis
  followers : List (Nat × Nat)
deriving DecidableEq, Repr

/-- user.coached_teams: teams whose coach is the user. -/
def coachedTeams (w : World) (u : UserRec) : List TeamRec :=
  w.teams.filter (fun t => t.coach = some u.id)

/-- Team.objects.filter(followers=user).values_list(id): team ids the user
follows directly. -/
def followedTeamIds (w : World) (u : UserRec) : List Nat :=
  (w.teams.filter (fun t => (t.id, u.id) ∈ w.followers)).map (·.id)

/-- Club of a team by id, for the staff branch. -/
def teamClub (w : World) (tid : Nat) : Option Nat :=
  (w.teams.find? (fun t => t.id = tid)).map (·.club)

/-- get_user_allowed_matches: role-dispatched match visibility.  The branch
chain of the source: unauthenticated, then admin, then staff, then the
coach-or-has-coached-teams branch (which only returns when the coached set is
nonempty, else execution falls through), then the parent branch, else empty.
Queryset ordering is presentational and not modelled. -/
def get_user_allowed_matches (w : World) (u : UserRec) : List MatchVis :=
  if !u.authenticated then []
  else if u.user_type = "admin" then
    w.gmatches.filter (fun m => m.created_by = some u.id)
  else if u.user_type = "staff" then
    let user_clubs := w.clubs.filter (fun c => c.owner = some u.id)
    w.gmatches.filter (fun m =>
      user_clubs.any (fun c => teamClub w m.home_team = some c.id) ||
      user_clubs.any (fun c => teamClub w m.away_team = some c.id))
  else if (u.user_type = "coach" || !(coachedTeams w u).isEmpty) &&
      !(coachedTeams w u).isEmpty then
    let coached := (coachedTeams w u).map (·.id)
    w.gmatches.filter (fun m => coached.contains m.home_team || coached.contains m.away_team)
  else if u.user_type = "parent" then
    let followed := followedTeamIds w u
    let playerTeams :=
      if u.email ≠ "" then
        (w.players.filter (fun p => p.parent_email = u.email)).map (·.team)
      else []
    let team_ids := (followed ++ playerTeams).dedup
    w.gmatches.filter (fun m =>
      team_ids.contains m.home_team || team_ids.contains m.away_team)
  else []

/-- The parent visibility predicate as the spec words it: either side of the
match belongs to the union of directly followed teams and the teams of
players one of whose two parent emails equals the user email. -/
def specParentAllowed (w : World) (u : UserRec) (m : MatchVis) : Bool :=
  let inSpecSet := fun tid : Nat =>
    (followedTeamIds w u).contains tid ||
    w.players.any (fun p =>
      (p.parent_email = u.email || p.parent2_email = u.email) && p.team = tid)
  inSpecSet m.home_team || inSpecSet m.away_team

/-- C4 (amended): for an authenticated parent-role user who coaches no team,
the match resolver returns exactly the matches in which either side belongs
to the union of the directly followed teams and, when the user email is
nonempty, the teams of players whose parent_email (first parent only — the
matches-app resolver never consults parent2_email) equals that email. -/
theorem c4_parent_visibility (w : World) (u : UserRec)
    (hauth : u.authenticated = true) (hrole : u.user_type = "parent")
    (hcoach : coachedTeams w u = []) (m : MatchVis) :
    m ∈ get_user_allowed_matches w u ↔
      (m ∈ w.gmatches ∧
        (∃ t, (t ∈ followedTeamIds w u ∨
            (u.email ≠ "" ∧ ∃ p ∈ w.players, p.parent_email = u.email ∧ p.team = t)) ∧
          (m.home_team = t ∨ m.away_team = t))) := by
  rw [get_user_allowed_matches]
  rw [if_neg (by simp [hauth]), if_neg (by simp [hrole]), if_neg (by simp [hrole]),
    if_neg (by simp [hcoach]), if_pos hrole]
  rw [List.mem_filter]
  constructor
  · rintro ⟨hm, hpred⟩
    refine ⟨hm, ?_⟩
    simp only [Bool.or_eq_true, List.contains_eq_any_beq, List.any_eq_true,
      List.mem_dedup, List.mem_append] at hpred
    rcases hpred with ⟨t, ht, hbeq⟩ | ⟨t, ht, hbeq⟩
    · have hbt : m.home_team = t := by simpa using hbeq
      rcases ht with ht | ht
      · exact ⟨t, Or.inl ht, Or.inl hbt⟩
      · by_cases he : u.email = ""
        · simp [he] at ht
        · obtain ⟨p, ⟨hp, hpe⟩, hpt⟩ := by
            simpa [he] using ht
          exact ⟨t, Or.inr ⟨he, p, hp, by simpa using hpe, hpt⟩, Or.inl hbt⟩
    · have hbt : m.away_team = t := by simpa using hbeq
      rcases ht with ht | ht
      · exact ⟨t, Or.inl ht, Or.inr hbt⟩
      · by_cases he : u.email = ""
        · simp [he] at ht
        · obtain ⟨p, ⟨hp, hpe⟩, hpt⟩ := by
            simpa [he] using ht
          exact ⟨t, Or.inr ⟨he, p, hp, by simpa using hpe, hpt⟩, Or.inr hbt⟩
  · rintro ⟨hm, t, ht, hside⟩
    refine ⟨hm, ?_⟩
    simp only [Bool.or_eq_true, List.contains_eq_any_beq, List.any_eq_true,
      List.mem_dedup, List.mem_append]
    have htIn : t ∈ followedTeamIds w u ∨
        t ∈ (if u.email ≠ "" then
          (w.players.filter (fun p => p.parent_email = u.email)).map (·.team)
        else []) := by
      rcases ht with ht | ⟨he, p, hp, hpe, hpt⟩
      · exact Or.inl ht
      · refine Or.inr ?_
        rw [if_pos he]
        exact List.mem_map.mpr ⟨p, List.mem_filter.mpr ⟨hp, by simpa using hpe⟩, hpt⟩
    rcases hside with hside | hside
    · exact Or.inl ⟨t, htIn, by simpa using hside⟩
    · exact Or.inr ⟨t, htIn, by simpa using hside⟩

/-- Concrete match between teams 1 and 2 for the C4 counterexample. -/
def c4m : MatchVis := { id := 1, home_team := 1, away_team := 2, created_by := none }

/-- Concrete world: the only player has the user email in parent2_email but a
different parent_email, and the user follows no team. -/
def c4w : World :=
  { clubs := []
    teams := [{ id := 1, club := 1, coach := none }, { id := 2, club := 1, coach := none }]
    players := [{ id := 1, team := 1, parent_email := "other@x", parent2_email := "p@x" }]
    gmatches := [c4m]
    followers := [] }

/-- The requesting parent user. -/
def c4u : UserRec := { id := 5, authenticated := true, user_type := "parent", email := "p@x" }

/-- Counterexample to C4 as stated: the claim (and the spec) puts the match
inside the parent visible set because parent2_email matches the user email,
but get_user_allowed_matches returns nothing, since the matches-app resolver
filters on parent_email only. -/
theorem c4_counterexample :
    specParentAllowed c4w c4u c4m = true ∧
    c4m ∈ c4w.gmatches ∧
    c4m ∉ get_user_allowed_matches c4w c4u := by
  refine ⟨by decide, by decide, by decide⟩

/-- Variant world whose player has the user email in parent_email. -/
def c4w2 : World :=
  { clubs := []
    teams := [{ id := 1, club := 1, coach := none }, { id := 2, club := 1, coach := none }]
    players := [{ id := 1, team := 1, parent_email := "p@x", parent2_email := "other@x" }]
    gmatches := [c4m]
    followers := [] }

/-- Witness for C4 (amended) at a concrete world: all three hypotheses are
discharged by evaluation. -/
theorem c4_parent_visibility_witness :
    c4m ∈ c4w2.gmatches ∧
    (∃ t, (t ∈ followedTeamIds c4w2 c4u ∨
        (c4u.email ≠ "" ∧ ∃ p ∈ c4w2.players, p.parent_email = c4u.email ∧ p.team = t)) ∧
      (c4m.home_team = t ∨ c4m.away_team = t)) :=
  (c4_parent_visibility c4w2 c4u (by decide) (by decide) (by decide) c4m).mp (by decide)

/-! ### The eleven-main-player roster cap

Source: teams/models.py, Player.clean (lines 196-216) and Player.save (lines
213-216).  The module imports (teams/models.py lines 1-6) pull in the
validator classes but never import ValidationError, so the raise statement
inside the guard resolves ValidationError to an undefined name: reaching it
raises NameError, which full_clean does not catch.  The embedding returns the
error message string the interpreter would produce. -/

/-- A Player row, as far as the roster-cap validation reads it.  A new,
unsaved row has id none (pk None), so the exclude(pk=self.pk) clause removes
nothing for it. -/
structure PlayerRow where
  id : Option Nat
  team : Nat
  is_main_player : Bool
  is_active : Bool
deriving DecidableEq, Repr

/-- Player.objects.filter(team=..., is_main_player=True, is_active=True)
.exclude(pk=self.pk).count() -/
def mainPlayersCountExcluding (db : List PlayerRow) (p : PlayerRow) : Nat :=
  (db.filter (fun q => q.team = p.team && q.is_main_player && q.is_active &&
    !(q.id = p.id))).length

/-- The guard of Player.clean: the raise statement is reached exactly when
the saved row is a main player and the team already has eleven other active
main players. -/
def playerCleanGuard (db : List PlayerRow) (p : PlayerRow) : Bool :=
  p.is_main_player && decide (11 ≤ mainPlayersCountExcluding db p)

/-- Player.save: full_clean runs clean; when the guard fires the raise
statement evaluates the name ValidationError, which teams/models.py never
imports, so the interpreter raises NameError and nothing is written;
otherwise the row is inserted (or replaces the row with its pk). -/
def playerSave (db : List PlayerRow) (p : PlayerRow) : Except String (List PlayerRow) :=
  if playerCleanGuard db p then
    Except.error "NameError: name ValidationError is not defined"
  else
    Except.ok ((db.filter (fun q => !(q.id = p.id && !(p.id = none)))) ++ [p])

/-- Eleven active main players of team 1, with pks 1 to 11. -/
def c5db : List PlayerRow :=
  (List.range 11).map (fun i =>
    { id := some (i + 1), team := 1, is_main_player := true, is_active := true })

/-- A new twelfth main player for team 1 (unsaved: pk none). -/
def c5p12 : PlayerRow := { id := none, team := 1, is_main_player := true, is_active := true }

/-- C5 evaluation at the failing input: with eleven active main players on
the team, saving a twelfth main player reaches the guard, so the save aborts
with NameError instead of the ValidationError the claim states, and the team
still has exactly eleven active main players afterwards. -/
theorem c5_roster_cap_name_error :
    (c5db.filter (fun q => q.team = 1 && q.is_main_player && q.is_active)).length = 11 ∧
    playerCleanGuard c5db c5p12 = true ∧
    playerSave c5db c5p12 = Except.error "NameError: name ValidationError is not defined" := by
  refine ⟨by decide, by decide, rfl⟩

/-! ### Bulk set-lineup

Source: matches/views.py, SetMatchLineupView.post (lines 823-860).  After
the permission checks the handler deletes every MatchLineup row of the
(match, team) pair and then iterates over starters + substitutes — but no
statement in the method ever binds the names starters or substitutes, so the
loop header raises NameError.  There is no transaction anywhere in the
repository, so the delete is not rolled back. -/

/-- A MatchLineup row, key fields plus the per-match stats. -/
structure LineupRow where
  match_id : Nat
  team : Nat
  player : Nat
  is_starter : Bool
  goals_scored : Nat
  assists : Nat
  yellow_cards : Nat
  red_cards : Nat
  minutes_played : Nat
deriving DecidableEq, Repr

/-- SetMatchLineupView.post after its permission checks: the delete of all
rows of the (match, team) pair executes, then evaluating the undefined name
starters raises NameError, so no insert ever runs and the handler returns a
server error with the rows already gone. -/
def setMatchLineupPost (db : List LineupRow) (matchId teamId : Nat) :
    List LineupRow × Except String Unit :=
  let afterDelete := db.filter (fun l => !(l.match_id = matchId && l.team = teamId))
  (afterDelete, Except.error "NameError: name starters is not defined")

/-- One existing lineup row for match 1, team 1. -/
def c6row : LineupRow :=
  { match_id := 1, team := 1, player := 3, is_starter := true, goals_scored := 2,
    assists := 0, yellow_cards := 0, red_cards := 0, minutes_played := 60 }

/-- C6 evaluation at the failing input: any set-lineup call deletes the
existing rows of the (match, team) pair and then fails, so the rows are lost
and nothing replaces them, contradicting the atomic-replace claim. -/
theorem c6_set_lineup_loses_rows :
    (setMatchLineupPost [c6row] 1 1).2 =
      Except.error "NameError: name starters is not defined" ∧
    (setMatchLineupPost [c6row] 1 1).1 = [] ∧
    c6row ∈ [c6row] := by
  refine ⟨rfl, by decide, by decide⟩

/-! ### Match lifecycle actions

Source: tournaments/views.py, MatchViewSet.start_match (lines 606-624) and
finish_match (lines 626-644), which guard on the current status and raise
ValidationError on a bad state after the permission check; and
matches/views.py StartMatchView, FinishMatchView, PostponeMatchView,
CancelMatchView, RescheduleMatchView (lines 523-663), which write the target
status without any precondition on the current status. -/

/-- The two error classes a lifecycle action can fail with. -/
inductive ApiErr
  | validation (msg : String)
  | permission (msg : String)
deriving DecidableEq, Repr

/-- Tournament-scoped start action: permission first, then the
scheduled-only state guard, then the transition to live. -/
def tournament_start_match (authorized : Bool) (m : TournMatch) : Except ApiErr TournMatch :=
  if !authorized then
    Except.error (ApiErr.permission "only the organizer or the coaches may start matches")
  else if m.status ≠ TStatus.scheduled then
    Except.error (ApiErr.validation "only scheduled matches may be started")
  else
    Except.ok { m with status := TStatus.live }

/-- Tournament-scoped finish action: permission first, then the
live-or-scheduled state guard, then the transition to finished. -/
def tournament_finish_match (authorized : Bool) (m : TournMatch) : Except ApiErr TournMatch :=
  if !authorized then
    Except.error (ApiErr.permission "only the organizer or the coaches may finish matches")
  else if !(m.status = TStatus.live || m.status = TStatus.scheduled) then
    Except.error (ApiErr.validation "the match must be live or scheduled")
  else
    Except.ok { m with status := TStatus.finished }

/-- A global Match row as the matches-app lifecycle views touch it. -/
structure GMatchLife where
  id : Nat
  status : GStatus
  scheduled_date : Nat
  actual_start_time : Option Nat
  actual_end_time : Option Nat
deriving DecidableEq, Repr

/-- StartMatchView.post after its permission checks: unconditional. -/
def startMatchViewPost (m : GMatchLife) (now : Nat) : GMatchLife :=
  { m with actual_start_time := some now, status := GStatus.live }

/-- FinishMatchView.post after its permission checks: unconditional. -/
def finishMatchViewPost (m : GMatchLife) (now : Nat) : GMatchLife :=
  { m with actual_end_time := some now, status := GStatus.finished }

/-- PostponeMatchView.post success path (valid new date): unconditional. -/
def postponeMatchViewPost (m : GMatchLife) (newDate : Nat) : GMatchLife :=
  { m with scheduled_date := newDate, status := GStatus.postponed }

/-- CancelMatchView.post after its permission checks: unconditional. -/
def cancelMatchViewPost (m : GMatchLife) : GMatchLife :=
  { m with status := GStatus.cancelled }

/-- RescheduleMatchView.post success path (valid new date): unconditional. -/
def rescheduleMatchViewPost (m : GMatchLife) (newDate : Nat) : GMatchLife :=
  { m with scheduled_date := newDate, status := GStatus.scheduled }

/-- A finished global match. -/
def c7fin : GMatchLife :=
  { id := 1, status := GStatus.finished, scheduled_date := 0,
    actual_start_time := none, actual_end_time := none }

/-- Counterexample to C7 as stated: the matches-app start action applied to a
finished match changes its status to live, so finished is not terminal for
the general lifecycle views. -/
theorem c7_counterexample :
    c7fin.status = GStatus.finished ∧
    (startMatchViewPost c7fin 5).status = GStatus.live ∧
    (startMatchViewPost c7fin 5).status ≠ GStatus.finished := by
  refine ⟨rfl, rfl, by decide⟩

/-- C7 (amended): for the tournament-scoped match actions, finished and
cancelled are terminal — start requires status scheduled, finish requires
live or scheduled, each failing with a validation (not permission) error
otherwise, while an unauthorized caller gets a permission error; the general
matches-app lifecycle views instead write their target status
unconditionally, so they do move a finished or cancelled match. -/
theorem c7_lifecycle (m : TournMatch) (g : GMatchLife) (now newDate : Nat) :
    ((m.status = TStatus.finished ∨ m.status = TStatus.cancelled) →
      ((∃ msg, tournament_start_match true m = Except.error (ApiErr.validation msg)) ∧
       (∃ msg, tournament_finish_match true m = Except.error (ApiErr.validation msg)))) ∧
    (m.status ≠ TStatus.scheduled →
      ∃ msg, tournament_start_match true m = Except.error (ApiErr.validation msg)) ∧
    (∃ msg, tournament_start_match false m = Except.error (ApiErr.permission msg)) ∧
    (m.status = TStatus.scheduled →
      tournament_start_match true m = Except.ok { m with status := TStatus.live }) ∧
    (startMatchViewPost g now).status = GStatus.live ∧
    (finishMatchViewPost g now).status = GStatus.finished ∧
    (cancelMatchViewPost g).status = GStatus.cancelled ∧
    (postponeMatchViewPost g newDate).status = GStatus.postponed ∧
    (rescheduleMatchViewPost g newDate).status = GStatus.scheduled := by
  refine ⟨?_, ?_,
    ⟨"only the organizer or the coaches may start matches", rfl⟩, ?_, rfl, rfl, rfl, rfl, rfl⟩
  · intro hm
    constructor
    · refine ⟨"only scheduled matches may be started", ?_⟩
      rw [tournament_start_match]
      rcases hm with hm | hm <;> rw [if_neg (by simp), if_pos (by simp [hm])]
    · refine ⟨"the match must be live or scheduled", ?_⟩
      rw [tournament_finish_match]
      rcases hm with hm | hm <;> rw [if_neg (by simp), if_pos (by simp [hm])]
  · intro hm
    refine ⟨"only scheduled matches may be started", ?_⟩
    rw [tournament_start_match, if_neg (by simp), if_pos (by simpa using hm)]
  · intro hm
    rw [tournament_start_match, if_neg (by simp), if_neg (by simp [hm])]

/-- A scheduled tournament match for the C7 witness. -/
def c7sched : TournMatch :=
  { id := 3, tournament := 1, phase := none, group := none, home_team := 1, away_team := 2,
    match_date := 0, venue := "", home_score := 0, away_score := 0,
    status := TStatus.scheduled }

/-- A finished tournament match for the C7 witness. -/
def c7tfin : TournMatch := { c7sched with status := TStatus.finished }

/-- Witness for C7 at concrete matches. -/
theorem c7_lifecycle_witness :
    (∃ msg, tournament_start_match true c7tfin = Except.error (ApiErr.validation msg)) ∧
    tournament_start_match true c7sched =
      Except.ok { c7sched with status := TStatus.live } :=
  ⟨((c7_lifecycle c7tfin c7fin 0 0).1 (Or.inl rfl)).1,
   (c7_lifecycle c7sched c7fin 0 0).2.2.2.1 rfl⟩

/-! ### Event creation and lineup counter increments

Source: matches/views.py, MatchEventViewSet.perform_create (lines 224-259):
after saving the event, MatchLineup.objects.get(match, player, team) selects
the unique lineup row (unique_together guarantees at most one; the embedding
updates every row with the key, which coincides under that constraint), the
counter for the event type is incremented and saved; DoesNotExist is caught
and skipped.  MatchEventsView.post (lines 667-704) saves the event through
the serializer only and never touches any lineup. -/

/-- Event types of MatchEvent. -/
inductive EventType
  | goal | own_goal | penalty_goal | yellow_card | red_card | substituted_out
  | injury | timeout
deriving DecidableEq, Repr

/-- A MatchEvent row, the fields the increment logic reads. -/
structure EventRec where
  match_id : Nat
  team : Nat
  player : Nat
  event_type : EventType
deriving DecidableEq, Repr

/-- MatchLineup.objects.get(match=event.match, player=event.player,
team=event.team) key test. -/
def lineupKeyMatches (e : EventRec) (l : LineupRow) : Bool :=
  l.match_id = e.match_id && l.player = e.player && l.team = e.team

/-- The per-event-type counter update of perform_create. -/
def applyEventToLineup (et : EventType) (l : LineupRow) : LineupRow :=
  match et with
  | EventType.goal => { l with goals_scored := l.goals_scored + 1 }
  | EventType.penalty_goal => { l with goals_scored := l.goals_scored + 1 }
  | EventType.yellow_card => { l with yellow_cards := l.yellow_cards + 1 }
  | EventType.red_card => { l with red_cards := l.red_cards + 1 }
  | _ => l

/-- MatchEventViewSet.perform_create: record the event, then increment the
matching lineup row when one exists; a missing row is silently skipped. -/
def matchEventPerformCreate (events : List EventRec) (lineups : List LineupRow)
    (e : EventRec) : List EventRec × List LineupRow :=
  match lineups.find? (lineupKeyMatches e) with
  | none => (events ++ [e], lineups)
  | some _ => (events ++ [e],
      lineups.map (fun l =>
        if lineupKeyMatches e l then applyEventToLineup e.event_type l else l))

/-- MatchEventsView.post (the nested route): records the event and touches no
lineup. -/
def matchEventsViewPost (events : List EventRec) (lineups : List LineupRow)
    (e : EventRec) : List EventRec × List LineupRow :=
  (events ++ [e], lineups)

/-- C8 (amended): events created through MatchEventViewSet.perform_create are
recorded, and the matching lineup row has its counter for goal and
penalty_goal (goals_scored), yellow_card (yellow_cards), or red_card
(red_cards) incremented by exactly one with the other stat fields unchanged,
rows without the key untouched, and a missing lineup row skipped without
error; events created through the nested MatchEventsView.post route are
recorded but never increment any lineup counter. -/
theorem c8_event_increments (events : List EventRec) (lineups : List LineupRow)
    (e : EventRec) :
    (matchEventPerformCreate events lineups e).1 = events ++ [e] ∧
    (lineups.find? (lineupKeyMatches e) = none →
      (matchEventPerformCreate events lineups e).2 = lineups) ∧
    ((lineups.find? (lineupKeyMatches e)).isSome →
      (matchEventPerformCreate events lineups e).2 =
        lineups.map (fun l =>
          if lineupKeyMatches e l then applyEventToLineup e.event_type l else l)) ∧
    (∀ l : LineupRow,
      ((e.event_type = EventType.goal ∨ e.event_type = EventType.penalty_goal) →
        (applyEventToLineup e.event_type l).goals_scored = l.goals_scored + 1 ∧
        (applyEventToLineup e.event_type l).yellow_cards = l.yellow_cards ∧
        (applyEventToLineup e.event_type l).red_cards = l.red_cards ∧
        (applyEventToLineup e.event_type l).assists = l.assists ∧
        (applyEventToLineup e.event_type l).minutes_played = l.minutes_played) ∧
      (e.event_type = EventType.yellow_card →
        (applyEventToLineup e.event_type l).yellow_cards = l.yellow_cards + 1 ∧
        (applyEventToLineup e.event_type l).goals_scored = l.goals_scored ∧
        (applyEventToLineup e.event_type l).red_cards = l.red_cards) ∧
      (e.event_type = EventType.red_card →
        (applyEventToLineup e.event_type l).red_cards = l.red_cards + 1 ∧
        (applyEventToLineup e.event_type l).goals_scored = l.goals_scored ∧
        (applyEventToLineup e.event_type l).yellow_cards = l.yellow_cards) ∧
      ((e.event_type = EventType.own_goal ∨ e.event_type = EventType.substituted_out ∨
          e.event_type = EventType.injury ∨ e.event_type = EventType.timeout) →
        applyEventToLineup e.event_type l = l)) ∧
    (matchEventsViewPost events lineups e).1 = events ++ [e] ∧
    (matchEventsViewPost events lineups e).2 = lineups := by
  refine ⟨?_, ?_, ?_, ?_, rfl, rfl⟩
  · rw [matchEventPerformCreate]
    cases h : lineups.find? (lineupKeyMatches e) <;> rfl
  · intro h
    rw [matchEventPerformCreate, h]
  · intro h
    rw [Option.isSome_iff_exists] at h
    obtain ⟨l0, hl0⟩ := h
    rw [matchEventPerformCreate, hl0]
  · intro l
    refine ⟨?_, ?_, ?_, ?_⟩
    · rintro (het | het) <;> rw [het] <;> exact ⟨rfl, rfl, rfl, rfl, rfl⟩
    · intro het; rw [het]; exact ⟨rfl, rfl, rfl⟩
    · intro het; rw [het]; exact ⟨rfl, rfl, rfl⟩
    · rintro (het | het | het | het) <;> rw [het] <;> rfl

/-- Lineup row for the C8 counterexample and witness. -/
def c8l : LineupRow :=
  { match_id := 1, team := 1, player := 3, is_starter := true, goals_scored := 0,
    assists := 0, yellow_cards := 0, red_cards := 0, minutes_played := 0 }

/-- A goal event by the lined-up player. -/
def c8e : EventRec := { match_id := 1, team := 1, player := 3, event_type := EventType.goal }

/-- Counterexample to C8 as stated: a goal event created through the nested
events route is recorded, a matching lineup row exists, yet its goals_scored
counter stays 0 instead of being incremented to 1. -/
theorem c8_counterexample :
    lineupKeyMatches c8e c8l = true ∧
    (matchEventsViewPost [] [c8l] c8e).1 = [c8e] ∧
    (matchEventsViewPost [] [c8l] c8e).2 = [c8l] ∧
    c8l.goals_scored = 0 := by
  refine ⟨by decide, rfl, rfl, rfl⟩

/-- Witness for C8 at a concrete event with a present lineup row. -/
theorem c8_event_increments_witness :
    (matchEventPerformCreate [] [c8l] c8e).2 =
      [c8l].map (fun l =>
        if lineupKeyMatches c8e l then applyEventToLineup c8e.event_type l else l) :=
  (c8_event_increments [] [c8l] c8e).2.2.1 (by decide)

/-! ### Group membership on tournament match creation

Source: tournaments/views.py, TournamentViewSet.create_match (lines 263-333),
which instantiates CreateMatchSerializer(data=request.data) with no group in
the serializer context and then calls Match.objects.create (which does not
run Match.clean); tournaments/serializers.py, CreateMatchSerializer.validate
(lines 137-178), whose group-membership check runs only when the context
carries a group; tournaments/models.py, Match.clean (lines 344-355); and
tournaments/views.py, TournamentGroupViewSet.create_match (lines 427-493),
which does pass context with the group.  TeamGroup rows are (team id,
group id) pairs; groups are (group id, tournament id) pairs. -/

/-- The fields of a created tournament Match the invariant speaks about. -/
structure CreatedMatch where
  tournament : Nat
  group : Option Nat
  home_team : Nat
  away_team : Nat
deriving DecidableEq, Repr

/-- CreateMatchSerializer.validate: teams exist, differ, and, only when the
serializer context carries a group, both teams are members of it. -/
def createMatchSerializerValidate (teams : List Nat) (tgs : List (Nat × Nat))
    (ctxGroup : Option Nat) (home away : Nat) : Except String Unit :=
  if !(teams.contains home) then Except.error "home team does not exist"
  else if !(teams.contains away) then Except.error "away team does not exist"
  else if home = away then Except.error "a team cannot play itself"
  else
    match ctxGroup with
    | none => Except.ok ()
    | some g =>
      if !(tgs.contains (home, g)) then Except.error "home team is not in this group"
      else if !(tgs.contains (away, g)) then Except.error "away team is not in this group"
      else Except.ok ()

/-- Match.clean: self-play check, then, when a group is set, membership of
both teams in it via TeamGroup. -/
def match_clean (tgs : List (Nat × Nat)) (m : CreatedMatch) : Except String Unit :=
  if m.home_team = m.away_team then Except.error "a team cannot play itself"
  else
    match m.group with
    | none => Except.ok ()
    | some g =>
      if tgs.contains (m.home_team, g) && tgs.contains (m.away_team, g) then Except.ok ()
      else Except.error "both teams must be in the same group"

/-- TournamentViewSet.create_match: serializer validation without group
context, group resolution by get_object_or_404 against the tournament, then
Match.objects.create, which never calls Match.clean. -/
def tournament_create_match (teams : List Nat) (tgs : List (Nat × Nat))
    (groups : List (Nat × Nat)) (tid home away : Nat) (groupId : Option Nat) :
    Except String CreatedMatch :=
  match createMatchSerializerValidate teams tgs none home away with
  | Except.error e => Except.error e
  | Except.ok _ =>
    match groupId with
    | none =>
      Except.ok { tournament := tid, group := none, home_team := home, away_team := away }
    | some g =>
      if groups.contains (g, tid) then
        Except.ok { tournament := tid, group := some g, home_team := home, away_team := away }
      else Except.error "404: group not found"

/-- TournamentGroupViewSet.create_match: the same serializer, but the view
passes the group in the context, so membership is validated. -/
def group_create_match (teams : List Nat) (tgs : List (Nat × Nat))
    (g tid home away : Nat) : Except String CreatedMatch :=
  match createMatchSerializerValidate teams tgs (some g) home away with
  | Except.error e => Except.error e
  | Except.ok _ =>
    Except.ok { tournament := tid, group := some g, home_team := home, away_team := away }

/-- C9 evaluation at the failing input: teams 1, 2, 3 exist, group 10 of
tournament 5 contains only team 1, yet the tournament-level create-match
path creates a match in group 10 between teams 1 and 2 — no validation error
— although team 2 is not a member, the model-level Match.clean would reject
exactly this match, and the group-level path does reject it. -/
theorem c9_group_membership_bypass :
    tournament_create_match [1, 2, 3] [(1, 10)] [(10, 5)] 5 1 2 (some 10) =
      Except.ok { tournament := 5, group := some 10, home_team := 1, away_team := 2 } ∧
    ((2, 10) ∉ ([(1, 10)] : List (Nat × Nat))) ∧
    match_clean [(1, 10)]
      { tournament := 5, group := some 10, home_team := 1, away_team := 2 } =
      Except.error "both teams must be in the same group" ∧
    group_create_match [1, 2, 3] [(1, 10)] 10 5 1 2 =
      Except.error "away team is not in this group" := by
  refine ⟨rfl, by decide, rfl, rfl⟩

/-! ### Derived winner of a global match

Source: matches/models.py, Match.winner (lines 98-124): penalties decide
first when both are set and unequal; equal or missing penalties fall through
to extra time under the same rule; equal or missing extra time falls through
to the normal score; a draw on the deciding comparison, or a status other
than finished, gives no winner. -/

/-- The normal-score comparison at the end of Match.winner. -/
def winnerNormal (m : GlobalMatch) : Option Nat :=
  if m.away_score < m.home_score then some m.home_team
  else if m.home_score < m.away_score then some m.away_team
  else none

/-- The extra-time block of Match.winner. -/
def winnerAfterPens (m : GlobalMatch) : Option Nat :=
  match m.home_score_extra_time, m.away_score_extra_time with
  | some he, some ae =>
    if ae < he then some m.home_team
    else if he < ae then some m.away_team
    else winnerNormal m
  | _, _ => winnerNormal m

/-- Match.winner. -/
def winner (m : GlobalMatch) : Option Nat :=
  if m.status ≠ GStatus.finished then none
  else
    match m.home_score_penalties, m.away_score_penalties with
    | some hp, some ap =>
      if ap < hp then some m.home_team
      else if hp < ap then some m.away_team
      else winnerAfterPens m
    | _, _ => winnerAfterPens m

/-- Both penalty scores are set and unequal. -/
def pensDeciding (m : GlobalMatch) : Prop :=
  ∃ hp ap, m.home_score_penalties = some hp ∧ m.away_score_penalties = some ap ∧ hp ≠ ap

/-- Both extra-time scores are set and unequal. -/
def etDeciding (m : GlobalMatch) : Prop :=
  ∃ he ae, m.home_score_extra_time = some he ∧ m.away_score_extra_time = some ae ∧ he ≠ ae

theorem winner_eq_afterPens (m : GlobalMatch) (h : m.status = GStatus.finished)
    (hnp : ¬pensDeciding m) : winner m = winnerAfterPens m := by
  rw [winner, if_neg (by simp [h])]
  cases hhp : m.home_score_penalties with
  | none => rfl
  | some hp =>
    cases hap : m.away_score_penalties with
    | none => rfl
    | some ap =>
      have heq : hp = ap := by
        by_contra hne
        exact hnp ⟨hp, ap, hhp, hap, hne⟩
      show (if ap < hp then some m.home_team
        else if hp < ap then some m.away_team else winnerAfterPens m) = winnerAfterPens m
      rw [if_neg (by omega), if_neg (by omega)]

theorem afterPens_eq_normal (m : GlobalMatch) (hne : ¬etDeciding m) :
    winnerAfterPens m = winnerNormal m := by
  rw [winnerAfterPens]
  cases hhe : m.home_score_extra_time with
  | none => rfl
  | some he =>
    cases hae : m.away_score_extra_time with
    | none => rfl
    | some ae =>
      have heq : he = ae := by
        by_contra h
        exact hne ⟨he, ae, hhe, hae, h⟩
      show (if ae < he then some m.home_team
        else if he < ae then some m.away_team else winnerNormal m) = winnerNormal m
      rw [if_neg (by omega), if_neg (by omega)]

/-- C10: the winner of a finished global match is decided by precedence over
the score pairs — penalties when both set and unequal, otherwise extra time
when both set and unequal, otherwise the normal score — with no winner when
the deciding comparison is a draw or the match is not finished. -/
theorem c10_winner (m : GlobalMatch) :
    (m.status ≠ GStatus.finished → winner m = none) ∧
    (m.status = GStatus.finished →
      ((∀ hp ap, m.home_score_penalties = some hp → m.away_score_penalties = some ap →
        hp ≠ ap →
        winner m = (if ap < hp then some m.home_team else some m.away_team)) ∧
      (¬pensDeciding m →
        ∀ he ae, m.home_score_extra_time = some he → m.away_score_extra_time = some ae →
        he ≠ ae →
        winner m = (if ae < he then some m.home_team else some m.away_team)) ∧
      (¬pensDeciding m → ¬etDeciding m →
        winner m = (if m.away_score < m.home_score then some m.home_team
          else if m.home_score < m.away_score then some m.away_team else none)))) := by
  constructor
  · intro h
    rw [winner, if_pos h]
  · intro h
    refine ⟨?_, ?_, ?_⟩
    · intro hp ap hhp hap hne
      rw [winner, if_neg (by simp [h]), hhp, hap]
      show (if ap < hp then some m.home_team
          else if hp < ap then some m.away_team else winnerAfterPens m) =
        (if ap < hp then some m.home_team else some m.away_team)
      by_cases hlt : ap < hp
      · rw [if_pos hlt, if_pos hlt]
      · rw [if_neg hlt, if_neg hlt, if_pos (by omega)]
    · intro hnp he ae hhe hae hne
      rw [winner_eq_afterPens m h hnp, winnerAfterPens, hhe, hae]
      show (if ae < he then some m.home_team
          else if he < ae then some m.away_team else winnerNormal m) =
        (if ae < he then some m.home_team else some m.away_team)
      by_cases hlt : ae < he
      · rw [if_pos hlt, if_pos hlt]
      · rw [if_neg hlt, if_neg hlt, if_pos (by omega)]
    · intro hnp hnet
      rw [winner_eq_afterPens m h hnp, afterPens_eq_normal m hnet, winnerNormal]

/-- A finished cup final decided on penalties, for the C10 witness. -/
def c10m : GlobalMatch :=
  { defaultGlobal 1 with
    status := GStatus.finished
    home_team := 1
    away_team := 2
    home_score := 1
    away_score := 1
    home_score_penalties := some 5
    away_score_penalties := some 4 }

/-- Witness for C10: the penalty branch at a concrete finished match. -/
theorem c10_winner_witness :
    winner c10m = (if (4 : Nat) < 5 then some c10m.home_team else some c10m.away_team) :=
  ((c10_winner c10m).2 rfl).1 5 4 rfl rfl (by decide)

end UFootball
